import Mathlib

/-!
Formal model (shallow embedding) of the chatbot retrieval pipeline of
`agrisense_app/backend/main.py` (the `/chatbot/ask` and `/chatbot/reload`
endpoints together with their helpers `_tokenize`, `_normalize_simple`,
`_find_crop_in_text`, `_load_chatbot_artifacts` and the module-level LRU
cache).

Modelling conventions:
- Python floats are modelled as rationals (`ℚ`); NumPy dot products become
  exact rational dot products.  Stored embedding vectors are modelled as the
  values obtained after the L2-normalisation performed at load time (the
  normalisation itself involves square roots and is not re-modelled).
- The external capabilities (TensorFlow query encoder, TF-IDF vectorizer,
  LightGBM model, external LLM scorer, environment variables, file mtimes)
  are black-box parameters of the model, collected in `Externals` and
  `DiskArtifacts`.
- `numpy.argsort` is modelled as a stable ascending sort of the index range
  (ties keep the lower index first); the source then reverses that order
  with `[::-1]`.
- Python `list.sort(key=..., reverse=True)` is a stable descending sort; it
  is modelled as sorting by the lexicographic key (value descending,
  original position ascending), which is extensionally the same function.
- A handful of source lines have corrupted (mixed) indentation in the
  snapshot; they are read with the evident block structure of the
  surrounding `try` blocks.
- Dictionaries with insertion order (`OrderedDict`) are modelled as
  association lists whose last element is the most recently inserted.
-/

/-! ## Python string primitives -/

/-- Python whitespace characters relevant to `str.strip` / `str.split`. -/
def pySpace (c : Char) : Bool :=
  c = ' ' ∨ c = '\t' ∨ c = '\n' ∨ c = '\r' ∨ c = '\x0b' ∨ c = '\x0c'

/-- Python `str.strip()` on a character list. -/
def pyStripCL (cs : List Char) : List Char :=
  ((cs.dropWhile pySpace).reverse.dropWhile pySpace).reverse

/-- Python `str.strip()`. -/
def pyStrip (s : String) : String := ⟨pyStripCL s.toList⟩

/-- Python `str.lower()` composed with the alphanumeric filter used by both
`_tokenize` and `_normalize_simple`: every non-alphanumeric character is
replaced by a space.  (`Char.isAlphanum`/`Char.toLower` are the ASCII
approximations of the Python predicates; all inputs of interest are ASCII.) -/
def lowerAlnumChars (s : String) : List Char :=
  s.toList.map (fun c => if (Char.toLower c).isAlphanum then Char.toLower c else ' ')

/-- Python `str.split()` (split on space runs, dropping empty words) on a
character list in which the only whitespace character is a space. -/
def splitSpacesAux : List Char → List Char → List (List Char)
  | [], acc => if acc = [] then [] else [acc.reverse]
  | c :: rest, acc =>
    if c = ' ' then
      if acc = [] then splitSpacesAux rest [] else acc.reverse :: splitSpacesAux rest []
    else splitSpacesAux rest (c :: acc)

/-- Words of the lowercased, alphanumeric-only form of `s`. -/
def pyWords (s : String) : List String :=
  (splitSpacesAux (lowerAlnumChars s) []).map (fun cs => ⟨cs⟩)

/-- The light suffix stripping of `_tokenize` (lines 1532-1542 of main.py). -/
def stemWord (w : String) : String :=
  if w.endsWith "es" ∧ 4 < w.length then w.dropRight 2
  else if w.endsWith "s" ∧ 3 < w.length then w.dropRight 1
  else if w.endsWith "ing" ∧ 5 < w.length then w.dropRight 3
  else if w.endsWith "ed" ∧ 4 < w.length then w.dropRight 2
  else w

/-- `_tokenize` of main.py: lowercase, keep alphanumerics, split, drop words
shorter than 3 characters, stem, collect into a set. -/
def tokenize (text : String) : Finset String :=
  (((pyWords text).filter (fun w => 3 ≤ w.length)).map stemWord).toFinset

/-- `_normalize_simple` of main.py: lowercase, non-alphanumeric to space,
collapse whitespace. -/
def normalizeSimple (text : String) : String :=
  " ".intercalate (pyWords text)

/-- Decides whether one character list is an initial segment of another. -/
def startsWithCL : List Char → List Char → Bool
  | [], _ => true
  | _ :: _, [] => false
  | a :: as, b :: bs => a = b && startsWithCL as bs

/-- Python substring containment (`needle in haystack`) on character lists. -/
def containsCL (needle : List Char) : List Char → Bool
  | [] => startsWithCL needle []
  | h :: t => startsWithCL needle (h :: t) || containsCL needle t

/-- Python substring containment on strings. -/
def strContains (haystack needle : String) : Bool :=
  containsCL needle.toList haystack.toList

/-! ## Stable descending sort (Python `list.sort(key=..., reverse=True)`) -/

/-- Lexicographic key order modelling a stable descending sort: an element
precedes another when its key is larger, or the keys are equal and it
occurred no later in the input. -/
def pyDescRel {α : Type} (key : α → ℚ) (a b : ℕ × α) : Prop :=
  key b.2 < key a.2 ∨ (key a.2 = key b.2 ∧ a.1 ≤ b.1)

instance {α : Type} (key : α → ℚ) : DecidableRel (pyDescRel key) :=
  fun _ _ => inferInstanceAs (Decidable (_ ∨ _))

instance {α : Type} (key : α → ℚ) : IsTotal (ℕ × α) (pyDescRel key) := by
  constructor
  intro a b
  rcases lt_trichotomy (key a.2) (key b.2) with h | h | h
  · exact Or.inr (Or.inl h)
  · rcases Nat.le_total a.1 b.1 with hle | hle
    · exact Or.inl (Or.inr ⟨h, hle⟩)
    · exact Or.inr (Or.inr ⟨h.symm, hle⟩)
  · exact Or.inl (Or.inl h)

instance {α : Type} (key : α → ℚ) : IsTrans (ℕ × α) (pyDescRel key) := by
  constructor
  intro a b c hab hbc
  rcases hab with h1 | ⟨h1, h1'⟩ <;> rcases hbc with h2 | ⟨h2, h2'⟩
  · exact Or.inl (lt_trans h2 h1)
  · exact Or.inl (h2 ▸ h1)
  · exact Or.inl (by rw [h1]; exact h2)
  · exact Or.inr ⟨h1.trans h2, Nat.le_trans h1' h2'⟩

/-- Stable descending sort by a rational key: tag with original positions,
sort by the lexicographic order, and forget the tags. -/
def pySortDescBy {α : Type} (key : α → ℚ) (l : List α) : List α :=
  (List.insertionSort (pyDescRel key) l.enum).map Prod.snd

theorem pySortDescBy_perm {α : Type} (key : α → ℚ) (l : List α) :
    (pySortDescBy key l).Perm l := by
  have h := (List.perm_insertionSort (pyDescRel key) l.enum).map Prod.snd
  simpa [pySortDescBy, List.enum_map_snd] using h

theorem pySortDescBy_sorted {α : Type} (key : α → ℚ) (l : List α) :
    List.Pairwise (fun x y => key y ≤ key x) (pySortDescBy key l) := by
  have h := List.sorted_insertionSort (pyDescRel key) l.enum
  have h2 : List.Pairwise (fun a b : ℕ × α => key b.2 ≤ key a.2)
      (List.insertionSort (pyDescRel key) l.enum) := by
    refine h.imp ?_
    intro a b hab
    rcases hab with hlt | ⟨heq, _⟩
    · exact le_of_lt hlt
    · exact le_of_eq heq.symm
  exact h2.map Prod.snd (fun a b hab => hab)

theorem pySortDescBy_length {α : Type} (key : α → ℚ) (l : List α) :
    (pySortDescBy key l).length = l.length :=
  (pySortDescBy_perm key l).length_eq

/-! ## CandidateRetriever: brute-force dot-product search (main.py 1810-1814,
1830-1833) -/

/-- Rational dot product (`emb @ v` row by row). -/
def dotQ (v w : List ℚ) : ℚ := (List.zipWith (· * ·) v w).sum

/-- `scores = emb @ v`: dot product of the query vector against every
indexed vector. -/
def retrieveScores (emb : List (List ℚ)) (v : List ℚ) : List ℚ :=
  emb.map (fun w => dotQ w v)

/-- Stable ascending comparison of indices by score (model of
`numpy.argsort`): smaller score first, ties by lower index first. -/
def ascRel (s : List ℚ) (i j : ℕ) : Prop :=
  s.getD i 0 < s.getD j 0 ∨ (s.getD i 0 = s.getD j 0 ∧ i ≤ j)

instance (s : List ℚ) : DecidableRel (ascRel s) :=
  fun _ _ => inferInstanceAs (Decidable (_ ∨ _))

instance (s : List ℚ) : IsTotal ℕ (ascRel s) := by
  constructor
  intro a b
  rcases lt_trichotomy (s.getD a 0) (s.getD b 0) with h | h | h
  · exact Or.inl (Or.inl h)
  · rcases Nat.le_total a b with hle | hle
    · exact Or.inl (Or.inr ⟨h, hle⟩)
    · exact Or.inr (Or.inr ⟨h.symm, hle⟩)
  · exact Or.inr (Or.inl h)

instance (s : List ℚ) : IsTrans ℕ (ascRel s) := by
  constructor
  intro a b c hab hbc
  rcases hab with h1 | ⟨h1, h1'⟩ <;> rcases hbc with h2 | ⟨h2, h2'⟩
  · exact Or.inl (lt_trans h1 h2)
  · exact Or.inl (h2 ▸ h1)
  · exact Or.inl (by rw [h1]; exact h2)
  · exact Or.inr ⟨h1.trans h2, Nat.le_trans h1' h2'⟩

/-- Model of `scores.argsort()`: the index range sorted by ascending score. -/
def argsortAsc (s : List ℚ) : List ℕ :=
  List.insertionSort (ascRel s) (List.range s.length)

/-- Model of `scores.argsort()[::-1]`. -/
def argsortDesc (s : List ℚ) : List ℕ := (argsortAsc s).reverse

/-- `cand_idx = scores.argsort()[::-1][: min(pool, scores.shape[0])]` with
`pool = int(max(topk * 5, 50))` (main.py 1813-1814 / 1832-1833). -/
def candIdx (s : List ℚ) (topk : ℕ) : List ℕ :=
  (argsortDesc s).take (min (max (topk * 5) 50) s.length)

theorem argsortDesc_perm (s : List ℚ) :
    (argsortDesc s).Perm (List.range s.length) := by
  have h := List.perm_insertionSort (ascRel s) (List.range s.length)
  exact (List.reverse_perm (argsortAsc s)).trans h

theorem argsortDesc_length (s : List ℚ) :
    (argsortDesc s).length = s.length := by
  simpa using (argsortDesc_perm s).length_eq

theorem candIdx_length (s : List ℚ) (topk : ℕ) :
    (candIdx s topk).length = min (max (topk * 5) 50) s.length := by
  simp only [candIdx, List.length_take, argsortDesc_length]
  omega

/-- The candidate pool is pairwise ordered: strictly larger score first, and
for equal scores the larger index first (reversal of the stable ascending
argsort). -/
theorem candIdx_pairwise (s : List ℚ) (topk : ℕ) :
    List.Pairwise
      (fun i j => s.getD j 0 < s.getD i 0 ∨ (s.getD i 0 = s.getD j 0 ∧ j < i))
      (candIdx s topk) := by
  have hs := List.sorted_insertionSort (ascRel s) (List.range s.length)
  have hrev : List.Pairwise (fun i j => ascRel s j i) (argsortDesc s) := by
    rw [argsortDesc, List.pairwise_reverse]
    exact hs
  have hnd : (argsortDesc s).Nodup :=
    ((argsortDesc_perm s).symm).nodup (List.nodup_range s.length)
  have hcomb := hrev.and hnd
  have himp : List.Pairwise
      (fun i j => s.getD j 0 < s.getD i 0 ∨ (s.getD i 0 = s.getD j 0 ∧ j < i))
      (argsortDesc s) := by
    refine hcomb.imp ?_
    intro a b hab
    rcases hab with ⟨hr, hne⟩
    rcases hr with hlt | ⟨heq, hle⟩
    · exact Or.inl hlt
    · exact Or.inr ⟨heq.symm, Nat.lt_of_le_of_ne hle (fun h => hne h.symm)⟩
  exact List.Pairwise.sublist (List.take_sublist _ _) himp

/-! ## Blender (main.py 1815-1827 / 1834-1846) -/

/-- `blended = alpha * sim + beta * overlap` with `beta = 1 - alpha`. -/
def blendScore (alpha sim ov : ℚ) : ℚ := alpha * sim + (1 - alpha) * ov

/-- Lexical overlap of a pooled candidate (main.py 1820-1824 / 1839-1843):
`len(qtok & tokens[j]) / max(1.0, len(qtok))`, and `0.0` when the token list
is absent or the query token set is empty. -/
def overlapQ (qtok : Finset String) (toks : Option (List (Finset String))) (j : ℕ) : ℚ :=
  match toks with
  | some ts => if qtok = ∅ then 0 else ((qtok ∩ ts.getD j ∅).card : ℚ) / max 1 (qtok.card : ℚ)
  | none => 0

/-- The blended candidate ranking: every pooled candidate is paired with its
blended score and the pairs are sorted descending (stable, so ties keep the
prior similarity rank). -/
def blendRank (alpha : ℚ) (scores : List ℚ) (toks : Option (List (Finset String)))
    (qtok : Finset String) (topk : ℕ) : List (ℕ × ℚ) :=
  pySortDescBy Prod.snd
    ((candIdx scores topk).map
      (fun j => (j, blendScore alpha (scores.getD j 0) (overlapQ qtok toks j))))

/-- Pure-embedding ranking of the candidate pool (stated from the
specification for comparison with `blendRank` at `alpha = 1`). -/
def simRank (scores : List ℚ) (topk : ℕ) : List (ℕ × ℚ) :=
  pySortDescBy Prod.snd ((candIdx scores topk).map (fun j => (j, scores.getD j 0)))

/-- Pure-lexical ranking of the candidate pool (stated from the
specification for comparison with `blendRank` at `alpha = 0`). -/
def lexRank (scores : List ℚ) (toks : Option (List (Finset String)))
    (qtok : Finset String) (topk : ℕ) : List (ℕ × ℚ) :=
  pySortDescBy Prod.snd ((candIdx scores topk).map (fun j => (j, overlapQ qtok toks j)))

/-! ## EntityShortcutMatcher (main.py 1053-1090, 1763-1789) -/

structure CropCard where
  id : String
  name : String
  scientificName : Option String := none
  category : Option String := none
  season : Option String := none
  waterRequirement : Option String := none
  tempRange : Option String := none
  phRange : Option String := none
  growthPeriod : Option String := none
  description : Option String := none
  tips : List String := []
deriving DecidableEq

/-- ASCII `str.lower()`. -/
def lowerStr (s : String) : String := ⟨s.toList.map Char.toLower⟩

/-- Python `str.replace(a, b)` for single characters. -/
def replChar (a b : Char) (s : String) : String :=
  ⟨s.toList.map (fun c => if c = a then b else c)⟩

/-- The `cand_len` computed for one card by `_find_crop_in_text`: the length
of the stripped matching phrase, or `-1` when neither the name nor the id
occurs as a whole-word phrase.  The name is tried first. -/
def cropMatchLen (qnorm : String) (c : CropCard) : Int :=
  let nameNorm := " " ++ replChar '-' ' ' (lowerStr c.name) ++ " "
  let idNorm := " " ++ replChar '_' ' ' (lowerStr c.id) ++ " "
  if strContains qnorm nameNorm then ((pyStrip nameNorm).length : Int)
  else if strContains qnorm idNorm then ((pyStrip idNorm).length : Int)
  else -1

/-- One step of the `_find_crop_in_text` scan: `if hit and cand_len > best_len`
replaces the best card seen so far. -/
def cropStep (qnorm : String) (acc : Option CropCard × Int) (c : CropCard) :
    Option CropCard × Int :=
  if 0 ≤ cropMatchLen qnorm c ∧ acc.2 < cropMatchLen qnorm c
  then (some c, cropMatchLen qnorm c) else acc

/-- `_find_crop_in_text`: scan the catalog, keeping the card with the
strictly largest `cand_len` seen so far. -/
def findCropInText (cards : List CropCard) (text : String) : Option CropCard :=
  let qnorm := " " ++ normalizeSimple text ++ " "
  (cards.foldl (cropStep qnorm) ((none : Option CropCard), (-1 : Int))).1

/-- One optional "Label: value" fact line; Python truthiness drops both
`None` and the empty string. -/
def optFact (label : String) (v : Option String) : List String :=
  match v with
  | some s => if s = "" then [] else [label ++ s]
  | none => []

/-- The synthesized entity answer of the shortcut path (main.py 1767-1782). -/
def synthAnswer (c : CropCard) : String :=
  let facts := ["Crop: " ++ c.name]
    ++ optFact "Category: " c.category
    ++ optFact "Season: " c.season
    ++ optFact "Water need: " c.waterRequirement
    ++ optFact "Temperature: " c.tempRange
    ++ optFact "Soil pH: " c.phRange
    ++ optFact "Growth period: " c.growthPeriod
    ++ (if c.tips = [] then [] else ["Tips: " ++ "; ".intercalate (c.tips.take 3)])
  "\n".intercalate facts

/-! ## Result rows -/

structure ResultEntry where
  rank : ℕ
  score : ℚ
  answer : String
deriving DecidableEq

/-- Rows `{"rank": i + 1, "score": float(scores[j]), "answer": answers[j]}`
(main.py 1894-1905).  Out-of-range indices are modelled by the defaults; the
indices produced by the pipeline are always in range. -/
def buildResults (answers : List String) (scores : List ℚ) (idx : List ℕ) :
    List ResultEntry :=
  idx.enum.map (fun p => ⟨p.1 + 1, scores.getD p.2 0, answers.getD p.2 ""⟩)

/-! ## LearnedReranker: LightGBM block (main.py 1847-1892) -/

/-- Presence of the two entries of the joblib bundle
(`{"vectorizer": ..., "model": ...}`); the callables themselves are the
black-box parameters `cosProxy` and `predict`. -/
structure LgbmBundle where
  hasVectorizer : Bool
  hasModel : Bool
deriving DecidableEq

/-- Token-set Jaccard similarity `len(a & b) / max(1, len(a | b))`. -/
def jaccardQ (a b : Finset String) : ℚ :=
  ((a ∩ b).card : ℚ) / (max 1 ((a ∪ b).card) : ℚ)

/-- `np.min` over a nonempty score list (the empty case is unreachable). -/
def listMinQ : List ℚ → ℚ
  | [] => 0
  | x :: xs => xs.foldl min x

/-- `np.max` over a nonempty score list (the empty case is unreachable). -/
def listMaxQ : List ℚ → ℚ
  | [] => 0
  | x :: xs => xs.foldl max x

/-- `_chatbot_answers or [""]` (Python truthiness). -/
def orListDefault (o : Option (List String)) : List String :=
  match o with
  | some l => if l = [] then [""] else l
  | none => [""]

/-- `ans_tokens[j] if ans_tokens else set()` with Python index semantics:
a bound `None` or empty list yields the empty set, an out-of-range index on
a nonempty list raises `IndexError`. -/
def ansTokAt (ansToks : Option (List (Finset String))) (j : ℕ) :
    Except Unit (Finset String) :=
  match ansToks with
  | none => .ok ∅
  | some ts =>
    if ts = [] then .ok ∅
    else if j < ts.length then .ok (ts.getD j ∅) else .error ()

/-- The body of the `try` block of the LightGBM re-ranking stage.  The
`ansTokensVar` argument models the Python local variable `ans_tokens`: it is
`none` when the variable is unbound (the question-index path never assigns
it, so reading it raises `UnboundLocalError`), and `some o` when it is bound
to the optional token list `o`. -/
def lgbmTry (cosProxy : String → String → ℚ) (predict : List (ℚ × ℚ) → List ℚ)
    (bundle : Option LgbmBundle) (ansTokensVar : Option (Option (List (Finset String))))
    (answersOpt : Option (List String)) (qtext : String) (qtok : Finset String)
    (topk : ℕ) (reranked : List (ℕ × ℚ)) : Except Unit (List (ℕ × ℚ)) :=
  match bundle with
  | none => .ok reranked
  | some b =>
    if reranked = [] then .ok reranked
    else
      let cand := reranked.take (min reranked.length (max 20 (topk * 4)))
      if b.hasVectorizer && b.hasModel then
        let answers := orListDefault answersOpt
        -- building cand_answers raises IndexError when a candidate position
        -- exceeds the answer list (possible on the question-index path)
        if cand.any (fun p => answers.length ≤ p.1) then .error ()
        else
          let cosP := cand.map (fun p => cosProxy qtext (answers.getD p.1 ""))
          match ansTokensVar with
          | none => .error ()
          | some ansToks =>
            match cand.mapM (fun p => (ansTokAt ansToks p.1).map (jaccardQ qtok)) with
            | .error e => .error e
            | .ok jac =>
              let ls := predict (cosP.zip jac)
              -- indexing lnorm[i] raises IndexError when the model returns
              -- fewer scores than candidates
              if ls.length < cand.length then .error ()
              else
                let lmin := listMinQ ls
                let lmax := listMaxQ ls
                let lnorm := ls.map (fun x => (x - lmin) / (lmax - lmin + 1 / 1000000000))
                let merged := cand.enum.map
                  (fun p => (p.2.1, 0.85 * p.2.2 + 0.15 * lnorm.getD p.1 0))
                .ok (pySortDescBy Prod.snd merged)
      else .ok reranked

/-- The LightGBM stage with its `except` handler: any internal failure keeps
the blended order. -/
def lgbmStage (cosProxy : String → String → ℚ) (predict : List (ℚ × ℚ) → List ℚ)
    (bundle : Option LgbmBundle) (ansTokensVar : Option (Option (List (Finset String))))
    (answersOpt : Option (List String)) (qtext : String) (qtok : Finset String)
    (topk : ℕ) (reranked : List (ℕ × ℚ)) : List (ℕ × ℚ) :=
  match lgbmTry cosProxy predict bundle ansTokensVar answersOpt qtext qtok topk reranked with
  | .ok r => r
  | .error _ => reranked

/-! ## External capabilities and environment -/

/-- Black-box collaborators and environment configuration read per request:
the query encoder (modelled as returning the normalized vector), the TF-IDF
cosine proxy and LightGBM predictor backing a loaded bundle, the LLM
re-ranking configuration (`GEMINI_API_KEY`/`DEEPSEEK_API_KEY` presence,
`CHATBOT_LLM_RERANK_TOPN`, `CHATBOT_LLM_BLEND`), the LLM scoring call
(an empty list models both an empty and a failed response), and the crop
catalog `_dataset_to_cards()`. -/
structure Externals where
  encode : String → List ℚ
  cosProxy : String → String → ℚ
  predict : List (ℚ × ℚ) → List ℚ
  llmEnabled : Bool
  llmTopN : Option ℤ
  llmBlend : Option ℚ
  llmScores : String → List String → List ℚ
  cards : List CropCard

/-! ## LLMReranker (main.py 1906-1933) -/

/-- Named clamp of `CHATBOT_LLM_RERANK_TOPN` (default 5, clamp [1, 25]). -/
def llmTopNClamp (ext : Externals) : ℕ := (max 1 (min 25 (ext.llmTopN.getD 5))).toNat

/-- Named clamp of `CHATBOT_LLM_BLEND` (default 0.10, clamp [0, 0.5]). -/
def llmBlendClamp (ext : Externals) : ℚ :=
  max 0 (min (1 / 2 : ℚ) (ext.llmBlend.getD (1 / 10)))

/-- The prefix rows rescored in place by the Python loop
`subset[i]["score"] = subset[i]["score"] * (1 - LLM_BLEND) + float(sc) * LLM_BLEND`:
row `i` is updated exactly when the LLM returned a score for it. -/
def llmScoredPrefix (ext : Externals) (qtext : String) (results : List ResultEntry) :
    List ResultEntry :=
  let subset := results.take (llmTopNClamp ext)
  let ls := ext.llmScores qtext (subset.map (fun r => r.answer))
  subset.enum.map (fun p =>
    if p.1 < ls.length
    then { p.2 with
        score := p.2.score * (1 - llmBlendClamp ext) + ls.getD p.1 0 * llmBlendClamp ext }
    else p.2)

/-- The LLM re-ranking stage: clamp the prefix size to `[1, 25]` (default 5)
and the blend weight to `[0, 0.5]` (default 0.10), rescore the prefix with
`original * (1 - w) + llmScore * w`, re-sort only the prefix and append the
remainder unchanged.  When the LLM returns more scores than the prefix
holds, the Python loop mutates every prefix row and then raises `IndexError`
before the re-sort, so the rescored prefix keeps its old order. -/
def llmStage (ext : Externals) (qtext : String) (results : List ResultEntry) :
    List ResultEntry :=
  if results ≠ [] ∧ ext.llmEnabled then
    let N := llmTopNClamp ext
    let subset := results.take N
    let ls := ext.llmScores qtext (subset.map (fun r => r.answer))
    if ls = [] then results
    else
      if subset.length < ls.length then llmScoredPrefix ext qtext results ++ results.drop N
      else pySortDescBy (fun r => r.score) (llmScoredPrefix ext qtext results)
        ++ results.drop N
  else results

/-! ## ConfidenceAnnotator (main.py 1934-1944) -/

def noteText : String :=
  "Note: confidence is low; results may be off. Try rephrasing or add details.\n\n"

/-- Prepend the low-confidence note to the first listed answer when the raw
similarity of the pre-LLM top candidate is below the threshold. -/
def confidenceStage (minCos : ℚ) (scores : List ℚ) (idx : List ℕ)
    (results : List ResultEntry) : List ResultEntry :=
  match results with
  | [] => []
  | r :: rest =>
    let topCos : ℚ := match idx with | [] => 0 | j :: _ => scores.getD j 0
    if topCos < minCos then { r with answer := noteText ++ r.answer } :: rest
    else r :: rest

/-! ## ResultCache (main.py 1512-1513, 1756-1761, 1783-1787, 1945-1948) -/

abbrev CacheKey := String × ℕ

abbrev Cache := List (CacheKey × List ResultEntry)

def CHATBOT_CACHE_MAX : ℕ := 64

def cacheLookup (c : Cache) (k : CacheKey) : Option (List ResultEntry) :=
  (c.find? (fun e => e.1 == k)).map (fun e => e.2)

/-- `OrderedDict.pop(key)` (the keys of the cache are unique). -/
def cacheErase (c : Cache) (k : CacheKey) : Cache :=
  c.filter (fun e => !(e.1 == k))

/-- Cache hit: `pop` the key and re-insert it at the most-recent end. -/
def cachePromote (c : Cache) (k : CacheKey) (v : List ResultEntry) : Cache :=
  cacheErase c k ++ [(k, v)]

/-- Cache miss: insert the fresh key at the most-recent end and, when over
capacity, `popitem(last=False)` evicts the least recently used head. -/
def cacheInsert (c : Cache) (k : CacheKey) (v : List ResultEntry) : Cache :=
  let c1 := c ++ [(k, v)]
  if CHATBOT_CACHE_MAX < c1.length then c1.drop 1 else c1

/-! ## ArtifactStore (main.py 1503-1521, 1556-1572, 1575-1730, 1970-1989) -/

/-- The optional question-side artifacts on disk (`chatbot_q_index.npz` and
`chatbot_qa_pairs.json`). -/
structure QIndexDisk where
  emb : List (List ℚ)
  questions : List String
  answers : List String

/-- What the loader can observe on disk: whether the mandatory artifacts
exist, the composite mtime fingerprint (abstracted to a number), the parsed
index contents, the optional `recall@1` metric, the optional environment
overrides, the optional LightGBM bundle and the optional question index. -/
structure DiskArtifacts where
  present : Bool
  sig : ℕ
  emb : List (List ℚ)
  answers : List String
  metrics : Option ℚ
  envAlpha : Option ℚ
  envMinCos : Option ℚ
  lgbm : Option LgbmBundle
  qIndex : Option QIndexDisk

/-- The module-level globals of the chatbot endpoint. -/
structure ChatbotState where
  loaded : Bool
  qLayer : Bool
  emb : Option (List (List ℚ))
  answers : Option (List String)
  answerTokens : Option (List (Finset String))
  qEmb : Option (List (List ℚ))
  qTexts : Option (List String)
  qTokens : Option (List (Finset String))
  qaAnswers : Option (List String)
  alpha : ℚ
  minCos : ℚ
  lgbm : Option LgbmBundle
  artifactSig : Option ℕ
  cache : Cache
deriving DecidableEq

/-- The metric-driven tuning of `alpha` / `min_cos` (main.py 1618-1635);
when the metrics file is absent the current values are kept. -/
def tuneOf (alpha minCos : ℚ) (m : Option ℚ) : ℚ × ℚ :=
  match m with
  | none => (alpha, minCos)
  | some r1 =>
    if (0.65 : ℚ) ≤ r1 then (0.8, 0.25)
    else if (0.5 : ℚ) ≤ r1 then (0.7, 0.27)
    else (0.55, 0.30)

def clamp01 (x : ℚ) : ℚ := max 0 (min 1 x)

/-- Loading of the optional question index (main.py 1680-1709): the
question embeddings are installed as soon as the files exist; the texts,
token sets and aligned answers only when both lists are nonempty and of
equal length. -/
def loadQIndex (d : Option QIndexDisk) :
    Option (List (List ℚ)) × Option (List String) ×
      Option (List (Finset String)) × Option (List String) :=
  match d with
  | none => (none, none, none, none)
  | some q =>
    if q.questions ≠ [] ∧ q.answers ≠ [] ∧ q.questions.length = q.answers.length
    then (some q.emb, some q.questions, some (q.questions.map tokenize), some q.answers)
    else (some q.emb, none, none, none)

/-- `_load_chatbot_artifacts`: return early when already loaded and the
signature is unchanged; fail (leaving the state alone) when the mandatory
artifacts are missing; otherwise install the fresh snapshot.  The cache is
never touched here. -/
def loadArtifacts (st : ChatbotState) (disk : DiskArtifacts) : ChatbotState × Bool :=
  if st.loaded ∧ st.artifactSig = some disk.sig then (st, true)
  else if disk.present then
    let t := tuneOf st.alpha st.minCos disk.metrics
    let a2 := match disk.envAlpha with | some x => clamp01 x | none => t.1
    let m2 := match disk.envMinCos with | some x => clamp01 x | none => t.2
    let q := loadQIndex disk.qIndex
    ({ loaded := true, qLayer := true,
       emb := some disk.emb,
       answers := some disk.answers,
       answerTokens := some (disk.answers.map tokenize),
       qEmb := q.1, qTexts := q.2.1, qTokens := q.2.2.1, qaAnswers := q.2.2.2,
       alpha := a2, minCos := m2,
       lgbm := disk.lgbm,
       artifactSig := some disk.sig,
       cache := st.cache }, true)
  else (st, false)

/-! ## The Ask endpoint (main.py 1733-1949) -/

structure AskOk where
  question : String
  results : List ResultEntry
deriving DecidableEq

inductive AskResponse where
  | ok (r : AskOk)
  | clientError (status : ℕ)
  | unavailable
deriving DecidableEq

/-- `int(max(1, min(q.top_k, 20)))`. -/
def clampTopK (k : ℤ) : ℕ := (max 1 (min k 20)).toNat

/-- The statistical pipeline run on a cache miss without an entity hit:
encode, retrieve (preferring the question index), blend, optional LightGBM
re-rank, row construction, optional LLM re-rank, confidence note
(main.py 1790-1944). -/
def askCompute (ext : Externals) (st1 : ChatbotState) (qtext : String) (topk : ℕ) :
    List ResultEntry :=
  let v := ext.encode qtext
  let qtok := tokenize qtext
  let useQ := st1.qEmb.isSome && st1.qTexts.isSome && st1.qaAnswers.isSome
  let scores :=
    if useQ then retrieveScores (st1.qEmb.getD []) v
    else retrieveScores (st1.emb.getD []) v
  let toks := if useQ then st1.qTokens else st1.answerTokens
  let reranked0 := blendRank st1.alpha scores toks qtok topk
  let ansTokensVar := if useQ then none else some st1.answerTokens
  let reranked := lgbmStage ext.cosProxy ext.predict st1.lgbm ansTokensVar
    st1.answers qtext qtok topk reranked0
  let idx := (reranked.take topk).map Prod.fst
  let ansList := if useQ then st1.qaAnswers.getD [] else st1.answers.getD []
  let results1 := buildResults ansList scores idx
  let results2 := llmStage ext qtext results1
  confidenceStage st1.minCos scores idx results2

/-- `chatbot_ask`: artifact load / staleness check first, then input
validation, cache lookup, entity shortcut, and only then the statistical
pipeline; every computed result list is inserted into the cache. -/
def chatbot_ask (ext : Externals) (disk : DiskArtifacts) (st : ChatbotState)
    (question : String) (top_k : ℤ) : ChatbotState × AskResponse :=
  let p := loadArtifacts st disk
  let st1 := p.1
  if ¬ (p.2 ∧ st1.qLayer ∧ st1.emb.isSome ∧ st1.answers.isSome) then
    (st1, .unavailable)
  else
    let qtext := pyStrip question
    if qtext = "" then (st1, .clientError 400)
    else
      let topk := clampTopK top_k
      let key : CacheKey := (qtext, topk)
      match cacheLookup st1.cache key with
      | some results =>
        ({ st1 with cache := cachePromote st1.cache key results }, .ok ⟨qtext, results⟩)
      | none =>
        match findCropInText ext.cards qtext with
        | some card =>
          let results := [⟨1, 1, synthAnswer card⟩]
          ({ st1 with cache := cacheInsert st1.cache key results }, .ok ⟨qtext, results⟩)
        | none =>
          let results := askCompute ext st1 qtext topk
          ({ st1 with cache := cacheInsert st1.cache key results }, .ok ⟨qtext, results⟩)

/-- The framework layer: `ChatbotQuery.question` has `min_length=1`, so the
empty string is rejected with a validation error before the handler runs. -/
def askEndpoint (ext : Externals) (disk : DiskArtifacts) (st : ChatbotState)
    (question : String) (top_k : ℤ) : ChatbotState × AskResponse :=
  if question.length < 1 then (st, .clientError 422)
  else chatbot_ask ext disk st question top_k

structure ReloadResponse where
  ok : Bool
  answerCount : ℕ
  alpha : ℚ
  minCos : ℚ
deriving DecidableEq

/-- `chatbot_reload`: clear the loaded snapshot and the whole cache, then
load from disk (main.py 1970-1989). -/
def chatbot_reload (st : ChatbotState) (disk : DiskArtifacts) :
    ChatbotState × ReloadResponse :=
  let st0 : ChatbotState :=
    { st with loaded := false, qLayer := false, emb := none, answers := none,
              answerTokens := none, artifactSig := none, cache := [] }
  let p := loadArtifacts st0 disk
  (p.1, ⟨p.2, (p.1.answers.getD []).length, p.1.alpha, p.1.minCos⟩)

/-- A sequence of Ask requests threaded through the endpoint state. -/
def runAsks (ext : Externals) (disk : DiskArtifacts) (st : ChatbotState)
    (reqs : List (String × ℤ)) : ChatbotState :=
  reqs.foldl (fun s r => (askEndpoint ext disk s r.1 r.2).1) st

/-! ## Helper lemmas -/

theorem loadArtifacts_cache (st : ChatbotState) (disk : DiskArtifacts) :
    ((loadArtifacts st disk).1).cache = st.cache := by
  unfold loadArtifacts
  split
  · rfl
  · split <;> rfl

theorem retrieveScores_length (emb : List (List ℚ)) (v : List ℚ) :
    (retrieveScores emb v).length = emb.length := by
  simp [retrieveScores]

theorem retrieveScores_getD (emb : List (List ℚ)) (v : List ℚ) (j : ℕ) :
    (retrieveScores emb v).getD j 0 = dotQ (emb.getD j []) v := by
  rcases h : emb[j]? with _ | w
  · have hlen : emb.length ≤ j := by
      simpa using (List.getElem?_eq_none_iff).1 h
    have h2 : (retrieveScores emb v)[j]? = none := by
      rw [List.getElem?_eq_none_iff]
      simpa [retrieveScores_length] using hlen
    simp [List.getD, h, h2, dotQ]
  · have h2 : (retrieveScores emb v)[j]? = some (dotQ w v) := by
      simp [retrieveScores, List.getElem?_map, h]
    simp [List.getD, h, h2]

/-! ## Concrete fixtures used by witnesses and counterexamples -/

/-- External collaborators with the LLM re-ranker disabled. -/
def fixExt : Externals :=
  { encode := fun _ => [1], cosProxy := fun _ _ => 0, predict := fun _ => [],
    llmEnabled := false, llmTopN := none, llmBlend := none,
    llmScores := fun _ _ => [], cards := [] }

/-- Disk artifacts with two answers and an `CHATBOT_ALPHA=0` override. -/
def fixDiskAlpha0 : DiskArtifacts :=
  { present := true, sig := 0, emb := [[0], [1]], answers := ["fertilizer tips", "other"],
    metrics := none, envAlpha := some 0, envMinCos := none, lgbm := none, qIndex := none }

/-- The freshly started (unloaded) module state. -/
def fixSt0 : ChatbotState :=
  { loaded := false, qLayer := false, emb := none, answers := none, answerTokens := none,
    qEmb := none, qTexts := none, qTokens := none, qaAnswers := none,
    alpha := 0.7, minCos := 0.28, lgbm := none, artifactSig := none, cache := [] }

/-- External collaborators whose LLM call inverts a two-candidate prefix. -/
def fixExtLlm : Externals :=
  { encode := fun _ => [1], cosProxy := fun _ _ => 0, predict := fun _ => [],
    llmEnabled := true, llmTopN := none, llmBlend := none,
    llmScores := fun _ cands => if cands.length = 2 then [0, 1] else [], cards := [] }

/-- Disk artifacts with two identically embedded answers. -/
def fixDiskTwin : DiskArtifacts :=
  { present := true, sig := 0, emb := [[1], [1]], answers := ["A", "B"],
    metrics := none, envAlpha := none, envMinCos := none, lgbm := none, qIndex := none }

/-- A loaded module state whose signature is stale (`99`) relative to the
disks below, with a higher tuned alpha. -/
def fixStStale : ChatbotState :=
  { loaded := true, qLayer := true, emb := some [[1]], answers := some ["x"],
    answerTokens := some [(∅ : Finset String)],
    qEmb := none, qTexts := none, qTokens := none, qaAnswers := none,
    alpha := 0.8, minCos := 0.28, lgbm := none, artifactSig := some 99, cache := [] }

/-- Fresh disk artifacts (signature `5`, low recall metric). -/
def fixDiskFresh : DiskArtifacts :=
  { present := true, sig := 5, emb := [[0], [1]], answers := ["fertilizer tips", "other"],
    metrics := some 0.4, envAlpha := none, envMinCos := none, lgbm := none, qIndex := none }

/-- The stale state with a previously cached result for `("q", 5)`. -/
def fixStCached : ChatbotState :=
  { fixStStale with cache := [(("q", 5), [⟨1, 9, "stale"⟩])] }

/-- The same state with an empty cache (what a recomputation would see). -/
def fixStCacheless : ChatbotState :=
  { fixStStale with cache := [] }

/-- A loaded state whose signature matches `fixDiskLoaded`, so the load is a
no-op. -/
def fixStLoaded : ChatbotState :=
  { loaded := true, qLayer := true, emb := some [[1]], answers := some ["a"],
    answerTokens := some [(∅ : Finset String)],
    qEmb := none, qTexts := none, qTokens := none, qaAnswers := none,
    alpha := 0.7, minCos := 0.28, lgbm := none, artifactSig := some 0, cache := [] }

def fixDiskLoaded : DiskArtifacts :=
  { present := true, sig := 0, emb := [[1]], answers := ["a"],
    metrics := none, envAlpha := none, envMinCos := none, lgbm := none, qIndex := none }

/-! ## C1: candidate retrieval -/

/-- C1 (amended): for every index, query vector and top-K, the candidate
retriever scores every indexed vector by dot product, keeps a pool of
`min(max(5*topK, 50), index size)` candidates sorted in non-increasing raw
similarity, and breaks similarity ties by original index order with the
HIGHER index first (the pool is the reversal of a stable ascending argsort,
so equal scores come out in descending index order). -/
theorem C1_retriever_pool (emb : List (List ℚ)) (v : List ℚ) (topk : ℕ) :
    (candIdx (retrieveScores emb v) topk).length
        = min (max (topk * 5) 50) emb.length
      ∧ List.Pairwise (fun i j =>
          (retrieveScores emb v).getD j 0 < (retrieveScores emb v).getD i 0
          ∨ ((retrieveScores emb v).getD i 0 = (retrieveScores emb v).getD j 0
              ∧ j < i))
        (candIdx (retrieveScores emb v) topk) := by
  constructor
  · rw [candIdx_length, retrieveScores_length]
  · exact candIdx_pairwise _ _

/-- C1 as stated is false: with two identical indexed vectors the candidate
pool is `[1, 0]`, i.e. the similarity tie is broken with the higher original
index first, not the lower. -/
theorem C1_counterexample :
    candIdx (retrieveScores [[1], [1]] [1]) 1 = [1, 0]
      ∧ ¬ List.Pairwise (fun i j =>
          (retrieveScores [[1], [1]] [1]).getD j 0
              < (retrieveScores [[1], [1]] [1]).getD i 0
          ∨ ((retrieveScores [[1], [1]] [1]).getD i 0
                = (retrieveScores [[1], [1]] [1]).getD j 0 ∧ i < j))
        (candIdx (retrieveScores [[1], [1]] [1]) 1) := by
  with_unfolding_all decide

/-! ## C4: blend algebra -/

/-- C4: for every pair of candidates on which the pure-embedding and
pure-lexical signals agree, no `alpha` in `[0, 1]` lets the blended score
`alpha * sim + (1 - alpha) * overlap` rank the pair in the opposite order;
at `alpha = 1` the blended ranking is the pure-embedding ranking of the
pool and at `alpha = 0` the pure-lexical ranking. -/
theorem C4_blend_agreement (α s₁ o₁ s₂ o₂ : ℚ) (scores : List ℚ)
    (toks : Option (List (Finset String))) (qtok : Finset String) (topk : ℕ)
    (h0 : 0 ≤ α) (h1 : α ≤ 1) (hs : s₂ ≤ s₁) (ho : o₂ ≤ o₁) :
    blendScore α s₂ o₂ ≤ blendScore α s₁ o₁
      ∧ blendRank 1 scores toks qtok topk = simRank scores topk
      ∧ blendRank 0 scores toks qtok topk = lexRank scores toks qtok topk := by
  refine ⟨?_, ?_, ?_⟩
  · have hmul₁ := mul_le_mul_of_nonneg_left hs h0
    have hmul₂ := mul_le_mul_of_nonneg_left ho (by linarith : (0 : ℚ) ≤ 1 - α)
    have := add_le_add hmul₁ hmul₂
    simpa [blendScore] using this
  · simp [blendRank, simRank, blendScore]
  · simp [blendRank, lexRank, blendScore]

theorem C4_witness :
    blendScore (1 / 2) 0 0 ≤ blendScore (1 / 2) 1 1
      ∧ blendRank 1 [0, 1] none ∅ 1 = simRank [0, 1] 1
      ∧ blendRank 0 [0, 1] none ∅ 1 = lexRank [0, 1] none ∅ 1 :=
  C4_blend_agreement (1 / 2) 1 1 0 0 [0, 1] none ∅ 1
    (by with_unfolding_all decide) (by with_unfolding_all decide)
    (by with_unfolding_all decide) (by with_unfolding_all decide)

/-! ## C10: reported scores are raw similarities -/

/-- C10: every result row reports the raw embedding similarity (the dot
product of the query vector with the candidate index vector) in its score
field — not the blended score used for ordering — so the listed scores need
not be non-increasing, as the concrete run shows: with `CHATBOT_ALPHA=0`
the lexical signal puts the similarity-0 candidate first and the response
lists scores `[0, 1]`. -/
theorem C10_raw_scores (answers : List String) (emb : List (List ℚ))
    (v : List ℚ) (idx : List ℕ) :
    (buildResults answers (retrieveScores emb v) idx).map (fun r => r.score)
        = idx.map (fun j => dotQ (emb.getD j []) v)
      ∧ (askEndpoint fixExt fixDiskAlpha0 fixSt0 "fertilizer" 5).2
          = .ok ⟨"fertilizer", [⟨1, 0, noteText ++ "fertilizer tips"⟩, ⟨2, 1, "other"⟩]⟩
      ∧ ¬ List.Pairwise (fun a b : ℚ => b ≤ a) [(0 : ℚ), 1] := by
  refine ⟨?_, by with_unfolding_all decide, by with_unfolding_all decide⟩
  rw [buildResults, List.map_map]
  have h : idx.enum.map ((fun r : ResultEntry => r.score) ∘
      (fun p : ℕ × ℕ => (⟨p.1 + 1, (retrieveScores emb v).getD p.2 0,
        answers.getD p.2 ""⟩ : ResultEntry)))
      = idx.enum.map (fun p => dotQ (emb.getD p.2 []) v) := by
    apply List.map_congr_left
    intro p _
    show (retrieveScores emb v).getD p.2 0 = dotQ (emb.getD p.2 []) v
    exact retrieveScores_getD emb v p.2
  rw [h]
  have h2 : idx.enum.map (fun p => dotQ (emb.getD p.2 []) v)
      = (idx.enum.map Prod.snd).map (fun j => dotQ (emb.getD j []) v) := by
    rw [List.map_map]
    rfl
  rw [h2, List.enum_map_snd]

/-! ## C2: cache clearing on reload -/

/-- C2 (amended): the result cache is cleared wholesale by the explicit
Reload request (before the load, so regardless of its outcome), but the
staleness-triggered reload performed inside an Ask request never touches
the cache, so an identical repeated query can still be answered from the
cache entries computed against the previous artifacts. -/
theorem C2_reload_cache_clearing (st : ChatbotState) (disk : DiskArtifacts) :
    (chatbot_reload st disk).1.cache = []
      ∧ (loadArtifacts st disk).1.cache = st.cache := by
  constructor
  · show ((loadArtifacts _ disk).1).cache = []
    rw [loadArtifacts_cache]
  · exact loadArtifacts_cache st disk

/-- C2 as stated is false: an Ask request that detects stale artifacts
(signature 99 on record, 5 on disk) successfully installs the new snapshot,
yet the identical repeated query `("q", 5)` is answered from the old cache
entry instead of being recomputed — a cacheless recomputation would answer
differently. -/
theorem C2_counterexample :
    fixStCached.artifactSig = some 99
      ∧ (askEndpoint fixExt fixDiskFresh fixStCached "q" 5).1.artifactSig = some 5
      ∧ (askEndpoint fixExt fixDiskFresh fixStCached "q" 5).1.answers
          = some ["fertilizer tips", "other"]
      ∧ (askEndpoint fixExt fixDiskFresh fixStCached "q" 5).2
          = .ok ⟨"q", [⟨1, 9, "stale"⟩]⟩
      ∧ (askEndpoint fixExt fixDiskFresh fixStCacheless "q" 5).2
          ≠ .ok ⟨"q", [⟨1, 9, "stale"⟩]⟩ := by
  with_unfolding_all decide

/-! ## C8: rejection of empty questions -/

/-- C8 (amended): a length-zero question is rejected by request validation
(422) before the handler touches anything; a whitespace-only question
passes validation and is rejected with a 400 client error only after the
artifact load / staleness check has already run (or a 503 when the
artifacts are unavailable), before any cache access, encoding or
retrieval; the cache is unchanged either way. -/
theorem C8_blank_question (ext : Externals) (disk : DiskArtifacts)
    (st : ChatbotState) (q : String) (tk tk2 : ℤ)
    (hne : q ≠ "") (hws : pyStrip q = "") :
    askEndpoint ext disk st "" tk2 = (st, .clientError 422)
      ∧ (askEndpoint ext disk st q tk).1 = (loadArtifacts st disk).1
      ∧ ((askEndpoint ext disk st q tk).2 = .clientError 400
          ∨ (askEndpoint ext disk st q tk).2 = .unavailable)
      ∧ (askEndpoint ext disk st q tk).1.cache = st.cache := by
  have hlen : ¬ q.length < 1 := by
    cases q with
    | mk data =>
      cases data with
      | nil => exact absurd rfl hne
      | cons c cs => simp [String.length]
  have hval : askEndpoint ext disk st "" tk2 = (st, .clientError 422) := by
    simp [askEndpoint]
  have hbody : askEndpoint ext disk st q tk = chatbot_ask ext disk st q tk := by
    rw [askEndpoint, if_neg hlen]
  by_cases hcond : ((loadArtifacts st disk).2 ∧ (loadArtifacts st disk).1.qLayer
      ∧ (loadArtifacts st disk).1.emb.isSome ∧ (loadArtifacts st disk).1.answers.isSome)
  · have hask : chatbot_ask ext disk st q tk
        = ((loadArtifacts st disk).1, .clientError 400) := by
      unfold chatbot_ask
      rw [if_neg (not_not_intro hcond), if_pos hws]
    refine ⟨hval, ?_, Or.inl ?_, ?_⟩
    · rw [hbody, hask]
    · rw [hbody, hask]
    · rw [hbody, hask]
      exact loadArtifacts_cache st disk
  · have hask : chatbot_ask ext disk st q tk
        = ((loadArtifacts st disk).1, .unavailable) := by
      unfold chatbot_ask
      rw [if_pos hcond]
    refine ⟨hval, ?_, Or.inr ?_, ?_⟩
    · rw [hbody, hask]
    · rw [hbody, hask]
    · rw [hbody, hask]
      exact loadArtifacts_cache st disk

theorem C8_witness :
    askEndpoint fixExt fixDiskLoaded fixStLoaded "" 5 = (fixStLoaded, .clientError 422)
      ∧ (askEndpoint fixExt fixDiskLoaded fixStLoaded " " 5).1
          = (loadArtifacts fixStLoaded fixDiskLoaded).1
      ∧ ((askEndpoint fixExt fixDiskLoaded fixStLoaded " " 5).2 = .clientError 400
          ∨ (askEndpoint fixExt fixDiskLoaded fixStLoaded " " 5).2 = .unavailable)
      ∧ (askEndpoint fixExt fixDiskLoaded fixStLoaded " " 5).1.cache = fixStLoaded.cache :=
  C8_blank_question fixExt fixDiskLoaded fixStLoaded " " 5 5
    (by with_unfolding_all decide) (by with_unfolding_all decide)

/-- C8 as stated is false: a whitespace-only question does get the 400
client error, but only after the artifact staleness check has already
reloaded the artifacts — the returned module state has the new signature
and the retuned alpha (0.8 became 0.55), so computation and an observable
state change happened before the rejection. -/
theorem C8_counterexample :
    (askEndpoint fixExt fixDiskFresh fixStStale " " 5).2 = .clientError 400
      ∧ fixStStale.alpha = 8 / 10
      ∧ (askEndpoint fixExt fixDiskFresh fixStStale " " 5).1.alpha = 11 / 20
      ∧ fixStStale.artifactSig = some 99
      ∧ (askEndpoint fixExt fixDiskFresh fixStStale " " 5).1.artifactSig = some 5 := by
  with_unfolding_all decide

/-! ## C7: rank numbering -/

theorem buildResults_ranks (answers : List String) (scores : List ℚ) (idx : List ℕ) :
    (buildResults answers scores idx).map (fun r => r.rank)
      = List.range' 1 idx.length := by
  rw [buildResults, List.map_map]
  have h : idx.enum.map ((fun r : ResultEntry => r.rank) ∘
      (fun p : ℕ × ℕ => (⟨p.1 + 1, scores.getD p.2 0, answers.getD p.2 ""⟩ : ResultEntry)))
      = (idx.enum.map Prod.fst).map (fun i => i + 1) := by
    rw [List.map_map]
    rfl
  rw [h, List.enum_map_fst, List.range'_eq_map_range]
  apply List.map_congr_left
  intro i _
  omega

theorem buildResults_length (answers : List String) (scores : List ℚ) (idx : List ℕ) :
    (buildResults answers scores idx).length = idx.length := by
  simp [buildResults]

theorem confidenceStage_ranks (m : ℚ) (s : List ℚ) (idx : List ℕ)
    (rs : List ResultEntry) :
    (confidenceStage m s idx rs).map (fun r => r.rank) = rs.map (fun r => r.rank) := by
  cases rs with
  | nil => rfl
  | cons r rest =>
    by_cases h : (match idx with | [] => (0 : ℚ) | j :: _ => s.getD j 0) < m
    · simp only [confidenceStage]
      rw [if_pos h]
      rfl
    · simp only [confidenceStage]
      rw [if_neg h]

theorem confidenceStage_length (m : ℚ) (s : List ℚ) (idx : List ℕ)
    (rs : List ResultEntry) :
    (confidenceStage m s idx rs).length = rs.length := by
  cases rs with
  | nil => rfl
  | cons r rest =>
    by_cases h : (match idx with | [] => (0 : ℚ) | j :: _ => s.getD j 0) < m
    · simp only [confidenceStage]
      rw [if_pos h]
      rfl
    · simp only [confidenceStage]
      rw [if_neg h]

theorem llmStage_disabled (ext : Externals) (q : String) (rs : List ResultEntry)
    (h : ext.llmEnabled = false) : llmStage ext q rs = rs := by
  unfold llmStage
  rw [if_neg]
  simp [h]

theorem askCompute_ranks (ext : Externals) (st1 : ChatbotState) (q : String) (k : ℕ)
    (h : ext.llmEnabled = false) :
    (askCompute ext st1 q k).map (fun r => r.rank)
      = List.range' 1 (askCompute ext st1 q k).length := by
  simp only [askCompute]
  rw [llmStage_disabled _ _ _ h, confidenceStage_ranks, confidenceStage_length,
    buildResults_ranks, buildResults_length]

/-- C7 (amended): on every cache-missing Ask request answered without the
LLM re-ranker, the rank fields ascend from 1 in listing order.  (When the
LLM re-ranker re-sorts the prefix, the rank fields assigned before the sort
travel with their rows, so the listed ranks are then only a permutation of
the prefix ranks — see the counterexample.) -/
theorem C7_ranks_ascending (ext : Externals) (disk : DiskArtifacts)
    (st st1 : ChatbotState) (q : String) (tk : ℤ) (r : AskOk)
    (hload : loadArtifacts st disk = (st1, true))
    (hQL : st1.qLayer = true) (hemb : st1.emb.isSome = true)
    (hans : st1.answers.isSome = true)
    (hq : ¬ pyStrip q = "")
    (hmiss : cacheLookup st1.cache (pyStrip q, clampTopK tk) = none)
    (hllm : ext.llmEnabled = false)
    (hresp : (chatbot_ask ext disk st q tk).2 = .ok r) :
    r.results.map (fun e => e.rank) = List.range' 1 r.results.length := by
  unfold chatbot_ask at hresp
  rw [hload] at hresp
  simp only [hQL, hemb, hans, and_true, true_and, not_true_eq_false, if_false,
    if_neg hq, hmiss] at hresp
  rcases hcrop : findCropInText ext.cards (pyStrip q) with _ | card <;>
    rw [hcrop] at hresp
  · simp only [AskResponse.ok.injEq] at hresp
    rw [← hresp]
    exact askCompute_ranks ext st1 (pyStrip q) (clampTopK tk) hllm
  · simp only [AskResponse.ok.injEq] at hresp
    rw [← hresp]
    rfl

/-- C7 as stated is false: with the LLM re-ranker enabled and inverting a
two-element prefix, the response lists rank 2 before rank 1. -/
theorem C7_counterexample :
    (askEndpoint fixExtLlm fixDiskTwin fixSt0 "hello" 5).2
        = .ok ⟨"hello", [⟨2, 1, "A"⟩, ⟨1, 9 / 10, "B"⟩]⟩
      ∧ (match (askEndpoint fixExtLlm fixDiskTwin fixSt0 "hello" 5).2 with
          | .ok r => r.results.map (fun e => e.rank)
          | _ => []) ≠ [1, 2] := by
  with_unfolding_all decide

theorem C7_witness :
    (match (chatbot_ask fixExt fixDiskLoaded fixStLoaded "hello" 5).2 with
      | .ok r => r.results.map (fun e => e.rank) = List.range' 1 r.results.length
      | _ => False) := by
  have h := C7_ranks_ascending fixExt fixDiskLoaded fixStLoaded fixStLoaded "hello" 5
    ⟨"hello", [⟨1, 1, "a"⟩]⟩
    (by with_unfolding_all decide) (by with_unfolding_all decide)
    (by with_unfolding_all decide) (by with_unfolding_all decide)
    (by with_unfolding_all decide) (by with_unfolding_all decide)
    (by with_unfolding_all decide) (by with_unfolding_all decide)
  have hresp : (chatbot_ask fixExt fixDiskLoaded fixStLoaded "hello" 5).2
      = .ok ⟨"hello", [⟨1, 1, "a"⟩]⟩ := by with_unfolding_all decide
  rw [hresp]
  exact h

/-! ## C3: bounded LRU cache -/

theorem cacheInsert_bound (c : Cache) (k : CacheKey) (v : List ResultEntry)
    (h : c.length ≤ CHATBOT_CACHE_MAX) :
    (cacheInsert c k v).length ≤ CHATBOT_CACHE_MAX := by
  unfold cacheInsert
  dsimp only
  split
  · simp only [List.length_drop, List.length_append, List.length_cons, List.length_nil]
    omega
  · rename_i hle
    simp only [not_lt, List.length_append, List.length_cons, List.length_nil] at hle
    simpa using hle

theorem cachePromote_bound (c : Cache) (k : CacheKey) (v v' : List ResultEntry)
    (hhit : cacheLookup c k = some v') (h : c.length ≤ CHATBOT_CACHE_MAX) :
    (cachePromote c k v).length ≤ CHATBOT_CACHE_MAX := by
  obtain ⟨e, he, hek⟩ : ∃ e ∈ c, (e.1 == k) = true := by
    unfold cacheLookup at hhit
    rcases hfind : c.find? (fun e => e.1 == k) with _ | e
    · rw [hfind] at hhit
      simp at hhit
    · have hp := List.find?_some hfind
      exact ⟨e, List.mem_of_find?_eq_some hfind, hp⟩
  have hlt : (cacheErase c k).length < c.length := by
    unfold cacheErase
    rw [List.length_filter_lt_length_iff_exists]
    exact ⟨e, he, by simp [hek]⟩
  unfold cachePromote
  simp only [List.length_append, List.length_cons, List.length_nil]
  omega

theorem cacheInsert_evict (c : Cache) (k : CacheKey) (v : List ResultEntry)
    (hfull : c.length = CHATBOT_CACHE_MAX) :
    cacheInsert c k v = c.drop 1 ++ [(k, v)] := by
  unfold cacheInsert
  dsimp only
  rw [if_pos (by simp [hfull, CHATBOT_CACHE_MAX])]
  rw [List.drop_append_of_le_length (by rw [hfull]; simp [CHATBOT_CACHE_MAX])]

theorem ask_cache_bound (ext : Externals) (disk : DiskArtifacts) (st : ChatbotState)
    (q : String) (tk : ℤ) (h : st.cache.length ≤ CHATBOT_CACHE_MAX) :
    (askEndpoint ext disk st q tk).1.cache.length ≤ CHATBOT_CACHE_MAX := by
  have hc1 : (loadArtifacts st disk).1.cache = st.cache := loadArtifacts_cache st disk
  unfold askEndpoint
  split
  · exact h
  unfold chatbot_ask
  dsimp only
  split
  · simpa [hc1] using h
  split
  · simpa [hc1] using h
  rcases hl : cacheLookup (loadArtifacts st disk).1.cache (pyStrip q, clampTopK tk)
      with _ | v
  · rcases hcrop : findCropInText ext.cards (pyStrip q) with _ | card
    · show (cacheInsert (loadArtifacts st disk).1.cache _ _).length ≤ _
      exact cacheInsert_bound _ _ _ (by rw [hc1]; exact h)
    · show (cacheInsert (loadArtifacts st disk).1.cache _ _).length ≤ _
      exact cacheInsert_bound _ _ _ (by rw [hc1]; exact h)
  · show (cachePromote (loadArtifacts st disk).1.cache _ v).length ≤ _
    exact cachePromote_bound _ _ v v hl (by rw [hc1]; exact h)

theorem runAsks_cache_bound (ext : Externals) (disk : DiskArtifacts)
    (reqs : List (String × ℤ)) :
    ∀ st : ChatbotState, st.cache.length ≤ CHATBOT_CACHE_MAX →
      (runAsks ext disk st reqs).cache.length ≤ CHATBOT_CACHE_MAX := by
  induction reqs with
  | nil => intro st h; exact h
  | cons r rest ih =>
    intro st h
    exact ih _ (ask_cache_bound ext disk st r.1 r.2 h)

/-- C3: over every sequence of Ask requests the cache never exceeds its
capacity of 64 entries; a hit on the key (stripped question, clamped top-K)
returns the cached rows unchanged (no recomputation, whatever the external
collaborators would compute) and promotes the key to the most-recent end;
an insert into a full cache drops exactly the least-recently-used head. -/
theorem C3_lru_cache (ext : Externals) (disk : DiskArtifacts)
    (st st1 : ChatbotState) (reqs : List (String × ℤ)) (q : String) (tk : ℤ)
    (v : List ResultEntry) (c2 : Cache) (k2 : CacheKey) (w : List ResultEntry)
    (hb : st.cache.length ≤ CHATBOT_CACHE_MAX)
    (hload : loadArtifacts st disk = (st1, true))
    (hQL : st1.qLayer = true) (hemb : st1.emb.isSome = true)
    (hans : st1.answers.isSome = true)
    (hq : ¬ pyStrip q = "")
    (hhit : cacheLookup st1.cache (pyStrip q, clampTopK tk) = some v)
    (hfull : c2.length = CHATBOT_CACHE_MAX) :
    (runAsks ext disk st reqs).cache.length ≤ CHATBOT_CACHE_MAX
      ∧ (chatbot_ask ext disk st q tk).2 = .ok ⟨pyStrip q, v⟩
      ∧ (chatbot_ask ext disk st q tk).1.cache
          = cachePromote st1.cache (pyStrip q, clampTopK tk) v
      ∧ ((chatbot_ask ext disk st q tk).1.cache).getLast?
          = some ((pyStrip q, clampTopK tk), v)
      ∧ cacheInsert c2 k2 w = c2.drop 1 ++ [(k2, w)] := by
  have hask : chatbot_ask ext disk st q tk
      = ({ st1 with cache := cachePromote st1.cache (pyStrip q, clampTopK tk) v },
          .ok ⟨pyStrip q, v⟩) := by
    unfold chatbot_ask
    rw [hload]
    simp only [hQL, hemb, hans, and_true, true_and, not_true_eq_false, if_false,
      if_neg hq, hhit]
  refine ⟨runAsks_cache_bound ext disk reqs st hb, ?_, ?_, ?_,
    cacheInsert_evict c2 k2 w hfull⟩
  · rw [hask]
  · rw [hask]
  · rw [hask]
    show (cachePromote st1.cache (pyStrip q, clampTopK tk) v).getLast? = _
    unfold cachePromote
    rw [List.getLast?_concat]

/-- A loaded state (matching `fixDiskLoaded`) holding one cached entry. -/
def fixStHit : ChatbotState :=
  { fixStLoaded with cache := [(("q", 5), [⟨1, 1, "x"⟩])] }

/-- A full cache of 64 distinct keys. -/
def fixCacheFull : Cache :=
  (List.range 64).map (fun i => (("k", i), []))

theorem C3_witness :
    (runAsks fixExt fixDiskLoaded fixStHit [("q", 5)]).cache.length ≤ CHATBOT_CACHE_MAX
      ∧ (chatbot_ask fixExt fixDiskLoaded fixStHit "q" 5).2
          = .ok ⟨pyStrip "q", [⟨1, 1, "x"⟩]⟩
      ∧ (chatbot_ask fixExt fixDiskLoaded fixStHit "q" 5).1.cache
          = cachePromote fixStHit.cache (pyStrip "q", clampTopK 5) [⟨1, 1, "x"⟩]
      ∧ ((chatbot_ask fixExt fixDiskLoaded fixStHit "q" 5).1.cache).getLast?
          = some ((pyStrip "q", clampTopK 5), [⟨1, 1, "x"⟩])
      ∧ cacheInsert fixCacheFull ("z", 0) [] = fixCacheFull.drop 1 ++ [(("z", 0), [])] :=
  C3_lru_cache fixExt fixDiskLoaded fixStHit fixStHit [("q", 5)] "q" 5
    [⟨1, 1, "x"⟩] fixCacheFull ("z", 0) []
    (by with_unfolding_all decide) (by with_unfolding_all decide)
    (by with_unfolding_all decide) (by with_unfolding_all decide)
    (by with_unfolding_all decide) (by with_unfolding_all decide)
    (by with_unfolding_all decide) (by with_unfolding_all decide)

/-! ## C6: LLM re-ranking arithmetic -/

/-- External collaborators whose LLM call scores a single candidate 1.0. -/
def fixExtC6 : Externals :=
  { fixExt with llmEnabled := true, llmScores := fun _ _ => [1] }

theorem takeDropConcat {α : Type} (L rest : List α) (N : ℕ) (hL : L.length ≤ N)
    (hcase : L.length = N ∨ rest = []) :
    (L ++ rest).take N = L ∧ (L ++ rest).drop N = rest := by
  rcases hcase with hEq | hnil
  · constructor
    · rw [List.take_append_of_le_length hEq.ge, List.take_of_length_le hL]
    · rw [List.drop_append_of_le_length hEq.ge, List.drop_eq_nil_of_le hL,
        List.nil_append]
  · rw [hnil, List.append_nil]
    constructor
    · exact List.take_of_length_le hL
    · exact List.drop_eq_nil_of_le hL

theorem llmScoredPrefix_length (ext : Externals) (qtext : String)
    (results : List ResultEntry) :
    (llmScoredPrefix ext qtext results).length
      = (results.take (llmTopNClamp ext)).length := by
  simp [llmScoredPrefix]

/-- C6: with the LLM re-ranker active and returning one score per prefix
row, every one of the first `N` rows (`N` the clamp of the top-N setting,
default 5, clamp [1, 25]) receives the blended score
`original * (1 - w) + llmScore * w` (`w` the clamp of the blend setting,
default 0.10, clamp [0, 0.5]); only that prefix is re-sorted (descending by
blended score) and the remainder is appended unchanged; concretely a row
with pipeline score 0.5 and LLM score 1.0 at the default weight ends at
exactly 0.55 = 11/20. -/
theorem C6_llm_rerank (ext : Externals) (qtext : String) (results : List ResultEntry)
    (hen : ext.llmEnabled = true) (hne : results ≠ [])
    (hlsne : ext.llmScores qtext
        ((results.take (llmTopNClamp ext)).map (fun r => r.answer)) ≠ [])
    (hlen : (ext.llmScores qtext
          ((results.take (llmTopNClamp ext)).map (fun r => r.answer))).length
        = (results.take (llmTopNClamp ext)).length) :
    (llmStage ext qtext results).drop (llmTopNClamp ext)
        = results.drop (llmTopNClamp ext)
      ∧ ((llmStage ext qtext results).take (llmTopNClamp ext)).Perm
          ((results.take (llmTopNClamp ext)).enum.map (fun p =>
            { p.2 with score := p.2.score * (1 - llmBlendClamp ext)
                + (ext.llmScores qtext
                    ((results.take (llmTopNClamp ext)).map (fun r => r.answer))).getD p.1 0
                  * llmBlendClamp ext }))
      ∧ List.Pairwise (fun a b : ResultEntry => b.score ≤ a.score)
          ((llmStage ext qtext results).take (llmTopNClamp ext))
      ∧ llmStage fixExtC6 "q" [⟨1, 1 / 2, "a"⟩] = [⟨1, 11 / 20, "a"⟩] := by
  have hnotlt : ¬ (results.take (llmTopNClamp ext)).length
      < (ext.llmScores qtext
          ((results.take (llmTopNClamp ext)).map (fun r => r.answer))).length := by
    rw [hlen]
    exact lt_irrefl _
  have hstage : llmStage ext qtext results
      = pySortDescBy (fun r => r.score) (llmScoredPrefix ext qtext results)
        ++ results.drop (llmTopNClamp ext) := by
    unfold llmStage
    rw [if_pos ⟨hne, hen⟩]
    dsimp only
    rw [if_neg hlsne, if_neg hnotlt]
  have hguard : llmScoredPrefix ext qtext results
      = (results.take (llmTopNClamp ext)).enum.map (fun p =>
          { p.2 with score := p.2.score * (1 - llmBlendClamp ext)
              + (ext.llmScores qtext
                  ((results.take (llmTopNClamp ext)).map (fun r => r.answer))).getD p.1 0
                * llmBlendClamp ext }) := by
    unfold llmScoredPrefix
    dsimp only
    apply List.map_congr_left
    intro p hp
    rw [if_pos]
    rw [hlen]
    exact List.fst_lt_of_mem_enum hp
  have hLlen : (pySortDescBy (fun r : ResultEntry => r.score)
      (llmScoredPrefix ext qtext results)).length
      = (results.take (llmTopNClamp ext)).length := by
    rw [pySortDescBy_length, llmScoredPrefix_length]
  have hLle : (pySortDescBy (fun r : ResultEntry => r.score)
      (llmScoredPrefix ext qtext results)).length ≤ llmTopNClamp ext := by
    rw [hLlen, List.length_take]
    omega
  have hcase : (pySortDescBy (fun r : ResultEntry => r.score)
        (llmScoredPrefix ext qtext results)).length = llmTopNClamp ext
      ∨ results.drop (llmTopNClamp ext) = [] := by
    rcases le_or_lt (llmTopNClamp ext) results.length with hle | hlt
    · left
      rw [hLlen, List.length_take]
      omega
    · right
      exact List.drop_eq_nil_of_le (le_of_lt hlt)
  obtain ⟨htake, hdrop⟩ := takeDropConcat
    (pySortDescBy (fun r : ResultEntry => r.score) (llmScoredPrefix ext qtext results))
    (results.drop (llmTopNClamp ext)) (llmTopNClamp ext) hLle hcase
  refine ⟨?_, ?_, ?_, by with_unfolding_all decide⟩
  · rw [hstage, hdrop]
  · rw [hstage, htake, ← hguard]
    exact pySortDescBy_perm _ _
  · rw [hstage, htake]
    exact pySortDescBy_sorted _ _

theorem C6_witness :
    (llmStage fixExtC6 "q" [⟨1, 1 / 2, "a"⟩]).drop (llmTopNClamp fixExtC6)
        = ([⟨1, 1 / 2, "a"⟩] : List ResultEntry).drop (llmTopNClamp fixExtC6)
      ∧ ((llmStage fixExtC6 "q" [⟨1, 1 / 2, "a"⟩]).take (llmTopNClamp fixExtC6)).Perm
          ((([⟨1, 1 / 2, "a"⟩] : List ResultEntry).take (llmTopNClamp fixExtC6)).enum.map
            (fun p => { p.2 with score := p.2.score * (1 - llmBlendClamp fixExtC6)
                + (fixExtC6.llmScores "q"
                    ((([⟨1, 1 / 2, "a"⟩] : List ResultEntry).take
                      (llmTopNClamp fixExtC6)).map (fun r => r.answer))).getD p.1 0
                  * llmBlendClamp fixExtC6 }))
      ∧ List.Pairwise (fun a b : ResultEntry => b.score ≤ a.score)
          ((llmStage fixExtC6 "q" [⟨1, 1 / 2, "a"⟩]).take (llmTopNClamp fixExtC6))
      ∧ llmStage fixExtC6 "q" [⟨1, 1 / 2, "a"⟩] = [⟨1, 11 / 20, "a"⟩] :=
  C6_llm_rerank fixExtC6 "q" [⟨1, 1 / 2, "a"⟩]
    (by with_unfolding_all decide) (by with_unfolding_all decide)
    (by with_unfolding_all decide) (by with_unfolding_all decide)

/-! ## C5: entity shortcut -/

theorem cropFold_spec (qnorm : String) (l : List CropCard) :
    ∀ acc : Option CropCard × Int, -1 ≤ acc.2 →
      (∀ c' ∈ l, cropMatchLen qnorm c' ≤ (l.foldl (cropStep qnorm) acc).2)
      ∧ acc.2 ≤ (l.foldl (cropStep qnorm) acc).2
      ∧ (l.foldl (cropStep qnorm) acc = acc
          ∨ ∃ c ∈ l, (l.foldl (cropStep qnorm) acc).1 = some c
              ∧ (l.foldl (cropStep qnorm) acc).2 = cropMatchLen qnorm c
              ∧ 0 ≤ cropMatchLen qnorm c) := by
  induction l with
  | nil =>
    intro acc _
    exact ⟨by simp, le_refl _, Or.inl rfl⟩
  | cons c cs ih =>
    intro acc hacc
    have hstep : -1 ≤ (cropStep qnorm acc c).2 := by
      unfold cropStep
      split
      · rename_i h
        exact le_trans (by norm_num) h.1
      · exact hacc
    obtain ⟨ih1, ih2, ih3⟩ := ih (cropStep qnorm acc c) hstep
    have hacc_step : acc.2 ≤ (cropStep qnorm acc c).2 := by
      unfold cropStep
      split
      · rename_i h
        exact le_of_lt h.2
      · exact le_refl _
    have hc_step : cropMatchLen qnorm c ≤ (cropStep qnorm acc c).2 := by
      unfold cropStep
      split
      · exact le_refl _
      · rename_i h
        push_neg at h
        rcases lt_or_le (cropMatchLen qnorm c) 0 with hneg | hpos
        · omega
        · exact h hpos
    have hfold : (c :: cs).foldl (cropStep qnorm) acc
        = cs.foldl (cropStep qnorm) (cropStep qnorm acc c) := rfl
    refine ⟨?_, ?_, ?_⟩
    · intro c' hc'
      rw [hfold]
      rcases List.mem_cons.1 hc' with rfl | hmem
      · exact le_trans hc_step ih2
      · exact ih1 c' hmem
    · rw [hfold]
      exact le_trans hacc_step ih2
    · rw [hfold]
      rcases ih3 with heq | ⟨c₀, hc₀, h1, h2, h3⟩
      · by_cases hif : 0 ≤ cropMatchLen qnorm c ∧ acc.2 < cropMatchLen qnorm c
        · right
          refine ⟨c, List.mem_cons_self c cs, ?_, ?_, hif.1⟩
          · rw [heq]
            unfold cropStep
            rw [if_pos hif]
          · rw [heq]
            unfold cropStep
            rw [if_pos hif]
        · left
          rw [heq]
          unfold cropStep
          rw [if_neg hif]
      · exact Or.inr ⟨c₀, List.mem_cons_of_mem c hc₀, h1, h2, h3⟩

/-- When `_find_crop_in_text` returns a card, that card is in the catalog,
it matches the normalized query as a whole-word phrase (its `cand_len` is
non-negative), and its `cand_len` is maximal over the whole catalog. -/
theorem findCrop_found (cards : List CropCard) (text : String) (c : CropCard)
    (h : findCropInText cards text = some c) :
    c ∈ cards
      ∧ 0 ≤ cropMatchLen (" " ++ normalizeSimple text ++ " ") c
      ∧ ∀ c' ∈ cards, cropMatchLen (" " ++ normalizeSimple text ++ " ") c'
          ≤ cropMatchLen (" " ++ normalizeSimple text ++ " ") c := by
  obtain ⟨h1, _, h3⟩ := cropFold_spec (" " ++ normalizeSimple text ++ " ") cards
    ((none : Option CropCard), (-1 : Int)) (by norm_num)
  unfold findCropInText at h
  dsimp only at h
  rcases h3 with heq | ⟨c₀, hmem, hfst, hsnd, hpos⟩
  · rw [heq] at h
    simp at h
  · rw [hfst] at h
    injection h with h
    subst h
    refine ⟨hmem, hpos, ?_⟩
    intro c' hc'
    rw [← hsnd]
    exact h1 c' hc'

/-- C5: when the normalized question contains a known crop name or id as a
whole-word phrase (so `_find_crop_in_text` returns a card) and the key is
not cached, the Ask endpoint answers with exactly one synthesized row of
rank 1 and score 1.0 built from that card — for every encoder, reranker and
LLM collaborator, i.e. without encoding, retrieval, blending, learned or
LLM re-ranking, or confidence markup — and the returned card matches as a
whole-word phrase with the maximal matched length over the catalog. -/
theorem C5_entity_shortcut (ext : Externals) (disk : DiskArtifacts)
    (st st1 : ChatbotState) (q : String) (tk : ℤ) (c c' : CropCard)
    (hload : loadArtifacts st disk = (st1, true))
    (hQL : st1.qLayer = true) (hemb : st1.emb.isSome = true)
    (hans : st1.answers.isSome = true)
    (hq : ¬ pyStrip q = "")
    (hmiss : cacheLookup st1.cache (pyStrip q, clampTopK tk) = none)
    (hcrop : findCropInText ext.cards (pyStrip q) = some c)
    (hc' : c' ∈ ext.cards) :
    (chatbot_ask ext disk st q tk).2
        = .ok ⟨pyStrip q, [⟨1, 1, synthAnswer c⟩]⟩
      ∧ (chatbot_ask ext disk st q tk).1.cache
          = cacheInsert st1.cache (pyStrip q, clampTopK tk) [⟨1, 1, synthAnswer c⟩]
      ∧ 0 ≤ cropMatchLen (" " ++ normalizeSimple (pyStrip q) ++ " ") c
      ∧ cropMatchLen (" " ++ normalizeSimple (pyStrip q) ++ " ") c'
          ≤ cropMatchLen (" " ++ normalizeSimple (pyStrip q) ++ " ") c := by
  have hask : chatbot_ask ext disk st q tk
      = ({ st1 with cache := cacheInsert st1.cache (pyStrip q, clampTopK tk) [⟨1, 1, synthAnswer c⟩] },
          .ok ⟨pyStrip q, [⟨1, 1, synthAnswer c⟩]⟩) := by
    unfold chatbot_ask
    rw [hload]
    simp only [hQL, hemb, hans, and_true, true_and, not_true_eq_false, if_false,
      if_neg hq, hmiss, hcrop]
  obtain ⟨_, hpos, hmax⟩ := findCrop_found ext.cards (pyStrip q) c hcrop
  exact ⟨by rw [hask], by rw [hask], hpos, hmax c' hc'⟩

/-- A catalog card used by the shortcut witness. -/
def fixRice : CropCard :=
  { id := "rice", name := "Rice", category := some "Cereal",
    season := some "Kharif", tips := ["puddle the field"] }

/-- Externals whose catalog holds the single card `fixRice`. -/
def fixExtCards : Externals :=
  { fixExt with cards := [fixRice] }

theorem C5_witness :
    (chatbot_ask fixExtCards fixDiskLoaded fixStLoaded "tell me about rice" 5).2
        = .ok ⟨pyStrip "tell me about rice", [⟨1, 1, synthAnswer fixRice⟩]⟩
      ∧ (chatbot_ask fixExtCards fixDiskLoaded fixStLoaded "tell me about rice" 5).1.cache
          = cacheInsert fixStLoaded.cache
              (pyStrip "tell me about rice", clampTopK 5) [⟨1, 1, synthAnswer fixRice⟩]
      ∧ 0 ≤ cropMatchLen (" " ++ normalizeSimple (pyStrip "tell me about rice") ++ " ")
          fixRice
      ∧ cropMatchLen (" " ++ normalizeSimple (pyStrip "tell me about rice") ++ " ")
            fixRice
          ≤ cropMatchLen (" " ++ normalizeSimple (pyStrip "tell me about rice") ++ " ")
            fixRice :=
  C5_entity_shortcut fixExtCards fixDiskLoaded fixStLoaded fixStLoaded
    "tell me about rice" 5 fixRice fixRice
    (by with_unfolding_all decide) (by with_unfolding_all decide)
    (by with_unfolding_all decide) (by with_unfolding_all decide)
    (by with_unfolding_all decide) (by with_unfolding_all decide)
    (by with_unfolding_all decide) (by with_unfolding_all decide)

/-! ## C9: the learned re-ranker in question-index mode -/

theorem lgbmStage_unbound (cosP : String → String → ℚ) (pr : List (ℚ × ℚ) → List ℚ)
    (bundle : Option LgbmBundle) (answersOpt : Option (List String)) (qtext : String)
    (qtok : Finset String) (topk : ℕ) (reranked : List (ℕ × ℚ)) :
    lgbmStage cosP pr bundle none answersOpt qtext qtok topk reranked = reranked := by
  cases bundle with
  | none => rfl
  | some b =>
    unfold lgbmStage lgbmTry
    dsimp only
    by_cases h1 : reranked = []
    · rw [if_pos h1]
    · rw [if_neg h1]
      by_cases h2 : (b.hasVectorizer && b.hasModel) = true
      · rw [if_pos h2]
        split
        · rename_i r heq
          split at heq <;> exact absurd heq (by simp)
        · rfl
      · rw [if_neg h2]

theorem lgbmTry_unbound_fails (cosP : String → String → ℚ)
    (pr : List (ℚ × ℚ) → List ℚ) (b : LgbmBundle)
    (answersOpt : Option (List String)) (qtext : String) (qtok : Finset String)
    (topk : ℕ) (reranked : List (ℕ × ℚ))
    (hv : b.hasVectorizer = true) (hm : b.hasModel = true) (hnil : reranked ≠ []) :
    lgbmTry cosP pr (some b) none answersOpt qtext qtok topk reranked = .error () := by
  unfold lgbmTry
  dsimp only
  rw [if_neg hnil, if_pos (by rw [hv, hm]; rfl)]
  split
  · rfl
  · rfl

/-- C9: whenever the question-side index is active, the LightGBM block can
never rerank: reading the `ans_tokens` variable (unbound on the
question-index path) always fails, the failure is swallowed, and the final
ordering is exactly the blended ordering — removing the loaded bundle from
the state does not change the computed results at all. -/
theorem C9_qmode_lgbm_noop (cosP : String → String → ℚ)
    (pr : List (ℚ × ℚ) → List ℚ) (b : LgbmBundle)
    (answersOpt : Option (List String)) (qtext : String) (qtok : Finset String)
    (topk : ℕ) (reranked : List (ℕ × ℚ))
    (ext : Externals) (st1 : ChatbotState) (q : String) (k : ℕ)
    (hv : b.hasVectorizer = true) (hm : b.hasModel = true) (hnil : reranked ≠ [])
    (hq1 : st1.qEmb.isSome = true) (hq2 : st1.qTexts.isSome = true)
    (hq3 : st1.qaAnswers.isSome = true) :
    lgbmTry cosP pr (some b) none answersOpt qtext qtok topk reranked = .error ()
      ∧ lgbmStage cosP pr (some b) none answersOpt qtext qtok topk reranked = reranked
      ∧ askCompute ext st1 q k = askCompute ext { st1 with lgbm := none } q k := by
  have huseQ : (st1.qEmb.isSome && st1.qTexts.isSome && st1.qaAnswers.isSome) = true := by
    rw [hq1, hq2, hq3]
    rfl
  refine ⟨lgbmTry_unbound_fails cosP pr b answersOpt qtext qtok topk reranked hv hm hnil,
    lgbmStage_unbound cosP pr (some b) answersOpt qtext qtok topk reranked, ?_⟩
  simp only [askCompute, huseQ, lgbmStage_unbound, if_true]

/-- A loaded state in question-index mode carrying a complete LightGBM
bundle. -/
def fixStQmode : ChatbotState :=
  { loaded := true, qLayer := true, emb := some [[1]], answers := some ["a"],
    answerTokens := some [(∅ : Finset String)],
    qEmb := some [[1]], qTexts := some ["hi"],
    qTokens := some [(∅ : Finset String)], qaAnswers := some ["ha"],
    alpha := 0.7, minCos := 0.28, lgbm := some ⟨true, true⟩,
    artifactSig := some 0, cache := [] }

theorem C9_witness :
    lgbmTry (fun _ _ => 0) (fun _ => []) (some ⟨true, true⟩) none (some ["a"])
        "q" ∅ 5 [(0, 1)] = .error ()
      ∧ lgbmStage (fun _ _ => 0) (fun _ => []) (some ⟨true, true⟩) none (some ["a"])
          "q" ∅ 5 [(0, 1)] = [(0, 1)]
      ∧ askCompute fixExt fixStQmode "hello" 5
          = askCompute fixExt { fixStQmode with lgbm := none } "hello" 5 :=
  C9_qmode_lgbm_noop (fun _ _ => 0) (fun _ => []) ⟨true, true⟩ (some ["a"])
    "q" ∅ 5 [(0, 1)] fixExt fixStQmode "hello" 5
    (by with_unfolding_all decide) (by with_unfolding_all decide)
    (by with_unfolding_all decide) (by with_unfolding_all decide)
    (by with_unfolding_all decide) (by with_unfolding_all decide)
